import Mathlib

/-!
Verification development for the `filter` repository's workspace lifecycle
core (`src/filter/workspace.py`, `src/filter/commands/workspace.py`,
`src/filter/operations/workspace_operations.py`, `src/filter/validation.py`).

The Python code is shallowly embedded: filesystem state is a finite set of
paths (a path being its list of components), external effects (TCP port
binding, `docker`/`git` subprocess exit codes, the random source backing
`secrets.choice`, the contents of template directories) are oracles passed
in explicitly, and Python exceptions become an explicit error type threaded
through `Except` / state-passing return values.
-/

set_option maxHeartbeats 1000000

namespace Filter

/-- A filesystem path, as its list of components relative to an abstract root
(mirroring `pathlib.Path` arithmetic: `base / name` is `base ++ [name]`). -/
abbrev FsPath := List String

/-- The filesystem, as the finite set (represented by a list) of paths that
currently exist. -/
abbrev FS := List FsPath

/-- `Path.exists()` in the model. -/
def fsContains (fs : FS) (p : FsPath) : Bool := fs.contains p

/-- `root.isUnder p` is true when `root` is an initial segment of `p`, i.e.
`p` is `root` itself or lies inside the directory `root`. -/
def isUnder : FsPath → FsPath → Bool
  | [], _ => true
  | _ :: _, [] => false
  | a :: r, b :: s => a == b && isUnder r s

/-- `mkdir` / file creation: insert a path (idempotent, as with
`exist_ok=True`). -/
def fsAdd (fs : FS) (p : FsPath) : FS :=
  if fsContains fs p then fs else p :: fs

/-- `shutil.rmtree p` (also covering `unlink` on a childless path): remove
`p` and every path beneath it. -/
def rmtree (fs : FS) (p : FsPath) : FS :=
  fs.filter (fun q => !(isUnder p q))

/-- The Python exceptions raised by the embedded code. -/
inductive PyError where
  | fileExists (path : FsPath)
  | fileNotFound (path : String)
  | runtimeError (msg : String)
  | calledProcessError (returncode : Nat)
  | validationError (field value reason : String)
  | valueError (msg : String)
  | undefinedError (name : String)
  | templateSyntaxError (msg : String)
  deriving Repr, DecidableEq

/-- `command_utils.CommandResult`: `success` is defined as
`returncode == 0`. -/
structure CommandResult where
  returncode : Nat
  deriving Repr, DecidableEq

def CommandResult.success (r : CommandResult) : Bool := r.returncode == 0

/-- `command_utils.run_command` reduced to its control flow: the subprocess
exit code is an oracle; with `check = true` (the default of both
`run_git_command` and `run_docker_command`) a non-zero exit raises
`subprocess.CalledProcessError`, otherwise the `CommandResult` is returned. -/
def run_command (returncode : Nat) (check : Bool) : Except PyError CommandResult :=
  if check && !(returncode == 0) then
    .error (.calledProcessError returncode)
  else
    .ok ⟨returncode⟩

/-! ### Port allocator (`workspace.find_available_port`) -/

/-- The `for port in range(start_port, start_port + max_attempts)` loop:
return the first candidate the bind oracle accepts, else `none`. -/
def scanPorts (bindOk : Nat → Bool) : Nat → Nat → Option Nat
  | _, 0 => none
  | p, k + 1 => if bindOk p then some p else scanPorts bindOk (p + 1) k

/-- `workspace.find_available_port(start_port, max_attempts)`: scan
ascending candidates, raising `RuntimeError` when none can be bound.
`bindOk` is the oracle for `socket.bind` succeeding on a port. -/
def find_available_port (bindOk : Nat → Bool) (startPort : Nat)
    (maxAttempts : Nat := 100) : Except PyError Nat :=
  match scanPorts bindOk startPort maxAttempts with
  | some p => .ok p
  | none => .error (.runtimeError "No available port found in range")

theorem scanPorts_ok (bindOk : Nat → Bool) :
    ∀ (k p q : Nat), scanPorts bindOk p k = some q →
      p ≤ q ∧ q < p + k ∧ bindOk q = true ∧
        ∀ r, p ≤ r → r < q → bindOk r = false := by
  intro k
  induction k with
  | zero => intro p q h; simp [scanPorts] at h
  | succ n ih =>
    intro p q h
    by_cases hb : bindOk p
    · simp [scanPorts, hb] at h
      subst h
      exact ⟨le_refl p, by omega, hb, fun r h1 h2 => absurd h1 (by omega)⟩
    · simp [scanPorts, hb] at h
      obtain ⟨h1, h2, h3, h4⟩ := ih (p + 1) q h
      refine ⟨by omega, by omega, h3, fun r hr1 hr2 => ?_⟩
      rcases Nat.eq_or_lt_of_le hr1 with rfl | hlt
      · exact Bool.eq_false_iff.mpr hb
      · exact h4 r hlt hr2

theorem scanPorts_none (bindOk : Nat → Bool) :
    ∀ (k p : Nat), scanPorts bindOk p k = none →
      ∀ r, p ≤ r → r < p + k → bindOk r = false := by
  intro k
  induction k with
  | zero => intro p _ r h1 h2; omega
  | succ n ih =>
    intro p h r h1 h2
    by_cases hb : bindOk p
    · simp [scanPorts, hb] at h
    · simp [scanPorts, hb] at h
      rcases Nat.eq_or_lt_of_le h1 with rfl | hlt
      · exact Bool.eq_false_iff.mpr hb
      · exact ih (p + 1) h r hlt (by omega)

/-! ### Input validation (`validation.InputValidator.validate_name`)

Python strings are modelled as `List Char`. The two regexes of
`validate_name` are hard-coded patterns: `^[a-zA-Z0-9_-]+$` (a full match,
where per Python's `re` semantics `$` also matches just before a single
newline that ends the string) and `^[a-zA-Z0-9]` (a head check). -/

/-- The character class `[a-zA-Z0-9_-]`. -/
def nameClassChar (c : Char) : Bool :=
  ('a' ≤ c && c ≤ 'z') || ('A' ≤ c && c ≤ 'Z') || ('0' ≤ c && c ≤ '9') ||
    c == '_' || c == '-'

/-- The character class `[a-zA-Z0-9]`. -/
def asciiAlnum (c : Char) : Bool :=
  ('a' ≤ c && c ≤ 'z') || ('A' ≤ c && c ≤ 'Z') || ('0' ≤ c && c ≤ '9')

/-- `re.match(r'^[cl]+$', s) is not None` for a character class `cl`: either
the whole string is one or more class characters, or everything before a
single final newline is (Python's `$` matches at the end of the string or
just before a newline ending it). -/
def reMatchPlusClassDollar (cl : Char → Bool) (s : List Char) : Bool :=
  (!s.isEmpty && s.all cl) ||
    (s.getLast? == some '\n' && !s.dropLast.isEmpty && s.dropLast.all cl)

/-- `re.match(r'^[a-zA-Z0-9]', s) is not None`. -/
def reMatchHeadAlnum (s : List Char) : Bool :=
  match s with
  | [] => false
  | c :: _ => asciiAlnum c

/-- `InputValidator.validate_name`, check for check. -/
def validate_name (name : List Char) (field : String := "name") :
    Except PyError (List Char) :=
  if name.isEmpty then
    .error (.validationError field (String.mk name) "cannot be empty")
  else if name.length > 100 then
    .error (.validationError field (String.mk name) "cannot exceed 100 characters")
  else if !(reMatchPlusClassDollar nameClassChar name) then
    .error (.validationError field (String.mk name)
      "must contain only alphanumeric characters, hyphens, and underscores")
  else if !(reMatchHeadAlnum name) then
    .error (.validationError field (String.mk name)
      "must start with an alphanumeric character")
  else
    .ok name

/-- The region of the string the `+`-class actually constrains: the whole
string, except that a single trailing newline is exempt. -/
def nameCore (s : List Char) : List Char :=
  if s.getLast? == some '\n' then s.dropLast else s

theorem reMatchPlusClassDollar_iff (cl : Char → Bool) (hnl : cl '\n' = false)
    (s : List Char) (hne : s ≠ []) :
    reMatchPlusClassDollar cl s = true ↔
      (nameCore s ≠ [] ∧ ∀ c ∈ nameCore s, cl c = true) := by
  by_cases hlast : s.getLast? = some '\n'
  · have hcore : nameCore s = s.dropLast := by simp [nameCore, hlast]
    have hsall : s.all cl = false := by
      cases hall : s.all cl
      · rfl
      · have := List.all_eq_true.mp hall '\n' (List.mem_of_getLast?_eq_some hlast)
        rw [hnl] at this; cases this
    rw [hcore]
    unfold reMatchPlusClassDollar
    simp [hlast, hsall, List.all_eq_true, List.isEmpty_iff]
  · have hcore : nameCore s = s := by simp [nameCore, hlast]
    rw [hcore]
    unfold reMatchPlusClassDollar
    simp [hlast, List.all_eq_true, List.isEmpty_iff, hne]

theorem nameCore_nil_head (name : List Char) (hne : name ≠ [])
    (hcore : nameCore name = []) : reMatchHeadAlnum name = false := by
  unfold nameCore at hcore
  by_cases hlast : name.getLast? = some '\n'
  · rw [if_pos (by simpa using hlast)] at hcore
    cases name with
    | nil => exact absurd rfl hne
    | cons c t =>
      cases t with
      | nil =>
        have hc : c = '\n' := by simpa using hlast
        subst hc; rfl
      | cons d u => simp at hcore
  · rw [if_neg (by simpa using hlast)] at hcore
    exact absurd hcore hne

theorem validate_name_error_iff (name : List Char) :
    (∃ e, validate_name name = .error e) ↔
      (name = [] ∨ 100 < name.length ∨
        (∃ c ∈ nameCore name, nameClassChar c = false) ∨
        reMatchHeadAlnum name = false) := by
  rcases Decidable.em (name = []) with rfl | hne
  · simp [validate_name]
  · have hre := reMatchPlusClassDollar_iff nameClassChar (by decide) name hne
    have h0 : name.isEmpty = false := by simpa [List.isEmpty_iff] using hne
    by_cases hlen : 100 < name.length
    · simp [validate_name, h0, hlen, hne]
    · by_cases hmatch : reMatchPlusClassDollar nameClassChar name = true
      · obtain ⟨hcne, hall⟩ := hre.mp hmatch
        by_cases hhead : reMatchHeadAlnum name = true
        · constructor
          · intro ⟨e, he⟩
            rw [validate_name] at he
            simp [h0, hlen, hmatch, hhead] at he
          · intro h
            rcases h with h | h | ⟨c, hc, hbad⟩ | h
            · exact absurd h hne
            · exact absurd h hlen
            · rw [hall c hc] at hbad; cases hbad
            · rw [hhead] at h; cases h
        · refine ⟨fun _ => Or.inr (Or.inr (Or.inr (Bool.eq_false_iff.mpr hhead))), fun _ => ?_⟩
          refine ⟨.validationError "name" (String.mk name)
            "must start with an alphanumeric character", ?_⟩
          rw [validate_name]
          simp [h0, hlen, hmatch, Bool.eq_false_iff.mpr hhead]
      · have hor : (∃ c ∈ nameCore name, nameClassChar c = false) ∨
            reMatchHeadAlnum name = false := by
          rcases Decidable.em (nameCore name = []) with hc | hc
          · exact Or.inr (nameCore_nil_head name hne hc)
          · rcases Decidable.em (∃ c ∈ nameCore name, nameClassChar c = false) with h | h
            · exact Or.inl h
            · exfalso
              apply hmatch
              refine hre.mpr ⟨hc, fun c hcmem => ?_⟩
              cases hcc : nameClassChar c
              · exact absurd ⟨c, hcmem, hcc⟩ h
              · rfl
        refine ⟨fun _ => Or.inr (Or.inr hor), fun _ =>
          ⟨.validationError "name" (String.mk name)
            "must contain only alphanumeric characters, hyphens, and underscores", ?_⟩⟩
        rw [validate_name]
        simp [h0, hlen, Bool.eq_false_iff.mpr hmatch]

/-- C9 counterexample: the name `"ab\n"` contains `'\n'`, a character outside
`[a-zA-Z0-9_-]`, yet `validate_name` accepts it: Python's `$` matches just
before a trailing newline, so the claim that validation raises exactly on
the listed conditions fails at this input. -/
theorem validate_name_trailing_newline_accepted :
    validate_name ['a', 'b', '\n'] = .ok ['a', 'b', '\n'] ∧
      '\n' ∈ ['a', 'b', '\n'] ∧ nameClassChar '\n' = false :=
  ⟨rfl, by decide, by decide⟩

/-- C9 (amended). `validate_name` raises exactly when the name is empty,
exceeds 100 characters, contains a character outside `[a-zA-Z0-9_-]`
anywhere other than as a single trailing newline (Python's `$` exempts that
position), or does not start with an ASCII alphanumeric character; in
particular `"-foo"`, though matching `^[a-zA-Z0-9_-]+$`, is rejected. -/
theorem validate_name_spec (name : List Char) :
    ((∃ e, validate_name name = .error e) ↔
      (name = [] ∨ 100 < name.length ∨
        (∃ c ∈ nameCore name, nameClassChar c = false) ∨
        reMatchHeadAlnum name = false)) ∧
    (∃ e, validate_name ['-', 'f', 'o', 'o'] = .error e) :=
  ⟨validate_name_error_iff name,
    (validate_name_error_iff ['-', 'f', 'o', 'o']).mpr (by decide)⟩

/-- Witness for C9: the theorem applied at the concrete name `"-foo"`. -/
theorem validate_name_spec_witness :
    ∃ e, validate_name ['-', 'f', 'o', 'o'] = .error e :=
  (validate_name_spec ['-', 'f', 'o', 'o']).2

/-! ### Decimal rendering (`str(counter)` in Python, `Nat.repr` here)

The story-workspace name generator interpolates a counter into
`f"{story_name}-ws-{counter}"`. Its uniqueness argument needs that distinct
counters give distinct strings, i.e. that decimal rendering is injective. -/

theorem toDigitsCore_eq_digits : ∀ (n : Nat), n ≠ 0 → ∀ (f : Nat) (acc : List Char),
    n ≤ f → Nat.toDigitsCore 10 f n acc =
      ((Nat.digits 10 n).map Nat.digitChar).reverse ++ acc := by
  intro n
  induction n using Nat.strong_induction_on with
  | _ n ih =>
    intro hn f acc hf
    match f with
    | 0 => omega
    | f + 1 =>
      simp only [Nat.toDigitsCore]
      by_cases h10 : n / 10 = 0
      · have hlt : n < 10 := by omega
        rw [if_pos h10, Nat.digits_def' (by norm_num : 1 < 10) (Nat.pos_of_ne_zero hn),
          Nat.mod_eq_of_lt hlt, h10]
        simp
      · have hpos : 0 < n := Nat.pos_of_ne_zero hn
        have hlt2 : n / 10 < n := Nat.div_lt_self hpos (by norm_num)
        rw [if_neg h10,
          ih (n / 10) hlt2 h10 f (Nat.digitChar (n % 10) :: acc) (by omega),
          Nat.digits_def' (by norm_num : 1 < 10) hpos]
        simp

theorem toDigits_eq_digits (n : Nat) (hn : n ≠ 0) :
    Nat.toDigits 10 n = ((Nat.digits 10 n).map Nat.digitChar).reverse := by
  unfold Nat.toDigits
  rw [toDigitsCore_eq_digits n hn (n + 1) [] (by omega)]
  simp

theorem digitChar_inj_lt10 (a b : Nat) (ha : a < 10) (hb : b < 10)
    (h : Nat.digitChar a = Nat.digitChar b) : a = b := by
  have key : ∀ x y : Fin 10, Nat.digitChar x.1 = Nat.digitChar y.1 → x = y := by decide
  exact congrArg Fin.val (key ⟨a, ha⟩ ⟨b, hb⟩ h)

theorem map_digitChar_inj : ∀ (l₁ l₂ : List Nat), (∀ d ∈ l₁, d < 10) →
    (∀ d ∈ l₂, d < 10) → l₁.map Nat.digitChar = l₂.map Nat.digitChar →
      l₁ = l₂ := by
  intro l₁
  induction l₁ with
  | nil =>
    intro l₂ _ _ h
    cases l₂ with
    | nil => rfl
    | cons b u => simp at h
  | cons a t ih =>
    intro l₂ h1 h2 h
    cases l₂ with
    | nil => simp at h
    | cons b u =>
      simp only [List.map_cons, List.cons.injEq] at h
      have hab : a = b := digitChar_inj_lt10 a b (h1 a (by simp)) (h2 b (by simp)) h.1
      rw [hab, ih u (fun d hd => h1 d (by simp [hd])) (fun d hd => h2 d (by simp [hd])) h.2]

theorem natRepr_inj : ∀ (m n : Nat), Nat.repr m = Nat.repr n → m = n := by
  have hdata : ∀ (m n : Nat), Nat.repr m = Nat.repr n →
      Nat.toDigits 10 m = Nat.toDigits 10 n := by
    intro m n h
    have := congrArg String.data h
    simpa [Nat.repr, List.asString] using this
  have hzero : ∀ n : Nat, n ≠ 0 → Nat.toDigits 10 n ≠ ['0'] := by
    intro n hn hcon
    rw [toDigits_eq_digits n hn] at hcon
    have : (Nat.digits 10 n).map Nat.digitChar = ['0'] := by
      have := congrArg List.reverse hcon
      simpa using this
    cases hd : Nat.digits 10 n with
    | nil => rw [hd] at this; simp at this
    | cons d u =>
      cases u with
      | nil =>
        rw [hd] at this
        simp only [List.map_cons, List.map_nil, List.cons.injEq] at this
        have hd10 : d < 10 := Nat.digits_lt_base (by norm_num) (by rw [hd]; simp)
        have hd0 : d = 0 := digitChar_inj_lt10 d 0 hd10 (by norm_num) this.1
        have := Nat.ofDigits_digits 10 n
        rw [hd, hd0] at this
        simp [Nat.ofDigits] at this
        exact hn this.symm
      | cons e v => rw [hd] at this; simp at this
  intro m n h
  rcases Decidable.em (m = 0) with rfl | hm
  · rcases Decidable.em (n = 0) with rfl | hn
    · rfl
    · exact absurd (hdata 0 n h).symm (hzero n hn)
  · rcases Decidable.em (n = 0) with rfl | hn
    · exact absurd (hdata m 0 h) (hzero m hm)
    · have h2 := hdata m n h
      rw [toDigits_eq_digits m hm, toDigits_eq_digits n hn] at h2
      have h3 : (Nat.digits 10 m).map Nat.digitChar =
          (Nat.digits 10 n).map Nat.digitChar := by
        have := congrArg List.reverse h2
        simpa using this
      have h4 := map_digitChar_inj (Nat.digits 10 m) (Nat.digits 10 n)
        (fun d hd => Nat.digits_lt_base (by norm_num) hd)
        (fun d hd => Nat.digits_lt_base (by norm_num) hd) h3
      calc m = Nat.ofDigits 10 (Nat.digits 10 m) := (Nat.ofDigits_digits 10 m).symm
        _ = Nat.ofDigits 10 (Nat.digits 10 n) := by rw [h4]
        _ = n := Nat.ofDigits_digits 10 n

/-! ### Story workspace name generation
(`workspace.generate_story_workspace_name`) -/

/-- The auto-generated candidate `f"{story_name}-ws-{counter}"`. -/
def wsNumName (story : String) (n : Nat) : String :=
  story ++ "-ws-" ++ Nat.repr n

theorem wsNumName_inj (story : String) (m n : Nat)
    (h : wsNumName story m = wsNumName story n) : m = n := by
  unfold wsNumName at h
  have hdata := congrArg String.data h
  simp only [String.data_append] at hdata
  have := List.append_cancel_left hdata
  exact natRepr_inj m n (by
    apply congrArg String.mk at this
    simpa using this)

/-- Since the candidate names for distinct counters are distinct strings and
the set of existing sibling directories is finite, some counter's candidate
is fresh; this is the termination fact behind the source's unbounded
`while True` loop. -/
theorem exists_free_wsNumName (story : String) (existing : List String) :
    ∃ k : Nat, wsNumName story (k + 1) ∉ existing := by
  by_contra hcon
  push_neg at hcon
  have hinj : Function.Injective
      (fun k : Fin (existing.length + 1) =>
        (⟨wsNumName story (k.1 + 1), List.mem_toFinset.mpr (hcon k.1)⟩ :
          { x // x ∈ existing.toFinset })) := by
    intro x y hxy
    have : wsNumName story (x.1 + 1) = wsNumName story (y.1 + 1) :=
      congrArg Subtype.val hxy
    have := wsNumName_inj story (x.1 + 1) (y.1 + 1) this
    exact Fin.ext (by omega)
  have hcard := Fintype.card_le_of_injective _ hinj
  rw [Fintype.card_fin, Fintype.card_coe] at hcard
  have := existing.toFinset_card_le
  omega

/-- `workspace.generate_story_workspace_name(story_name, custom_name,
base_dir)`. `existing` is the finite set of directory names present in
`base_dir`. With a custom suffix the name is `story-custom`, rejected with
`ValueError` when the suffix fails `^[a-zA-Z0-9\-_]+$` (the same class and
`$` semantics as `validate_name`'s pattern); otherwise the `while True`
loop returns `f"{story}-ws-{n}"` for the first counter `n = 1, 2, …` whose
directory does not exist, rendered here by `Nat.find` on that loop's exit
condition. -/
def generate_story_workspace_name (story : String) (custom? : Option String)
    (existing : List String) : Except PyError String :=
  match custom? with
  | some custom =>
      if reMatchPlusClassDollar nameClassChar custom.data then
        .ok (story ++ "-" ++ custom)
      else
        .error (.valueError "Custom name contains invalid characters.")
  | none =>
      .ok (wsNumName story (Nat.find (exists_free_wsNumName story existing) + 1))

/-- C6. Name-generator uniqueness: with no custom suffix, the generator
returns `"{story}-ws-{n}"` for the smallest `n ≥ 1` whose name is not among
the existing sibling directory names, and in particular the returned name
never equals an existing directory name. -/
theorem generate_story_workspace_name_unique (story : String)
    (existing : List String) :
    ∃ n : Nat,
      generate_story_workspace_name story none existing =
        .ok (wsNumName story n) ∧
      1 ≤ n ∧ wsNumName story n ∉ existing ∧
      ∀ m, 1 ≤ m → m < n → wsNumName story m ∈ existing := by
  refine ⟨Nat.find (exists_free_wsNumName story existing) + 1, rfl, by omega,
    Nat.find_spec (exists_free_wsNumName story existing), ?_⟩
  intro m h1 h2
  have hmin := @Nat.find_min _ _ (exists_free_wsNumName story existing)
    (m - 1) (by omega)
  have : ¬ wsNumName story (m - 1 + 1) ∉ existing := hmin
  rw [Nat.sub_add_cancel h1] at this
  exact Decidable.not_not.mp this

/-- C7. Port allocator: `find_available_port(start, max_attempts)` returns
the first bindable port `≥ start`, scanning candidates in ascending order and
examining only the `max_attempts` candidates `start, …, start+max_attempts-1`;
when none of those candidates can be bound it fails with the
resource-exhausted `RuntimeError` instead of looping forever. -/
theorem find_available_port_spec (bindOk : Nat → Bool) (startPort maxAttempts : Nat) :
    (∀ p, find_available_port bindOk startPort maxAttempts = .ok p →
      startPort ≤ p ∧ p < startPort + maxAttempts ∧ bindOk p = true ∧
        ∀ r, startPort ≤ r → r < p → bindOk r = false) ∧
    ((∀ r, startPort ≤ r → r < startPort + maxAttempts → bindOk r = false) ↔
      find_available_port bindOk startPort maxAttempts =
        .error (.runtimeError "No available port found in range")) := by
  constructor
  · intro p h
    unfold find_available_port at h
    cases hscan : scanPorts bindOk startPort maxAttempts with
    | none => rw [hscan] at h; exact absurd h (by simp)
    | some q =>
      rw [hscan] at h
      obtain rfl : q = p := by simpa using h
      exact scanPorts_ok bindOk maxAttempts startPort q hscan
  · constructor
    · intro hall
      unfold find_available_port
      cases hscan : scanPorts bindOk startPort maxAttempts with
      | none => rfl
      | some q =>
        obtain ⟨h1, h2, h3, _⟩ := scanPorts_ok bindOk maxAttempts startPort q hscan
        rw [hall q h1 h2] at h3
        exact absurd h3 (by simp)
    · intro h
      unfold find_available_port at h
      cases hscan : scanPorts bindOk startPort maxAttempts with
      | none => exact scanPorts_none bindOk maxAttempts startPort hscan
      | some q => rw [hscan] at h; exact absurd h (by simp)

/-- Witness for C7 at a concrete bind oracle that refuses ports below 5435:
the allocator run from 5433 returns 5435, which the theorem certifies. -/
theorem find_available_port_spec_witness :
    5433 ≤ 5435 ∧ 5435 < 5433 + 100 ∧ (fun p => decide (5435 ≤ p)) 5435 = true :=
  have h := (find_available_port_spec (fun p => decide (5435 ≤ p)) 5433 100).1 5435 rfl
  ⟨h.1, h.2.1, h.2.2.1⟩

/-! ### Template rendering (`workspace.render_template`)

`render_template` delegates to Jinja2 with a `FileSystemLoader` and default
undefined handling. The template fragment the repository's templates use is
modelled as an AST: literal text, `{{ name }}` substitutions, and
`{{ name.attr }}` attribute accesses; a file that fails to parse is
`malformed`. The semantics follow Jinja2's documented defaults: the default
`Undefined` prints as the empty string, while any other operation on it —
such as attribute access on an undefined name — raises `UndefinedError`;
a malformed template raises `TemplateSyntaxError`. -/

inductive TemplateItem where
  | text (s : String)
  | var (name : String)
  | varAttr (name attr : String)
  deriving Repr, DecidableEq

inductive TemplateSource where
  | wellFormed (items : List TemplateItem)
  | malformed (msg : String)
  deriving Repr, DecidableEq

/-- Dictionary lookup in the render context. -/
def lookupCtx (context : List (String × String)) (name : String) :
    Option String :=
  (context.find? (fun kv => kv.1 == name)).map (·.2)

/-- Jinja2 evaluation of a parsed template body, left to right. `attrs`
resolves attribute access on a defined context value (`none` meaning the
attribute is itself undefined, which still prints as the empty string). -/
def renderItems (context : List (String × String))
    (attrs : String → String → Option String) :
    List TemplateItem → Except PyError String
  | [] => .ok ""
  | .text s :: rest => (renderItems context attrs rest).map (s ++ ·)
  | .var name :: rest =>
      (renderItems context attrs rest).map ((lookupCtx context name).getD "" ++ ·)
  | .varAttr name attr :: rest =>
      match lookupCtx context name with
      | none => .error (.undefinedError name)
      | some _ =>
          (renderItems context attrs rest).map ((attrs name attr).getD "" ++ ·)

/-- `workspace.render_template(template_path, context)`: `FileNotFoundError`
when the path does not exist, otherwise load and render the template.
`files` gives the parsed source behind each existing path. -/
def render_template (files : String → Option TemplateSource)
    (attrs : String → String → Option String) (templatePath : String)
    (context : List (String × String)) : Except PyError String :=
  match files templatePath with
  | none => .error (.fileNotFound templatePath)
  | some (.malformed msg) => .error (.templateSyntaxError msg)
  | some (.wellFormed items) => renderItems context attrs items

/-- C2 counterexample: a template whose body is `x={{ foo }}` with `foo`
undefined in the context renders to `"x="` — output is produced and no
error is raised, because Jinja2's default `Undefined` prints as the empty
string. This falsifies the claim that an undefined referenced variable
makes `render` fail rather than produce output. -/
theorem render_template_undefined_var_renders :
    render_template
      (fun p => if p == "templates/default/.env.j2" then
        some (.wellFormed [.text "x=", .var "foo"]) else none)
      (fun _ _ => none) "templates/default/.env.j2" [] = .ok "x=" ∧
    lookupCtx [] "foo" = none :=
  ⟨rfl, rfl⟩

theorem renderItems_varAttr_undef (context : List (String × String))
    (attrs : String → String → Option String) (name attr : String)
    (rest : List TemplateItem) :
    ∀ pre, (∀ it ∈ pre, ∃ s, it = TemplateItem.text s) →
      lookupCtx context name = none →
      renderItems context attrs (pre ++ .varAttr name attr :: rest) =
        .error (.undefinedError name) := by
  intro pre
  induction pre with
  | nil =>
    intro _ hundef
    simp [renderItems, hundef]
  | cons it t ih =>
    intro hpre hundef
    obtain ⟨s, rfl⟩ := hpre it (by simp)
    rw [List.cons_append]
    simp only [renderItems]
    rw [ih (fun x hx => hpre x (by simp [hx])) hundef]
    rfl

/-- C2 (amended). Rendering fails with `FileNotFoundError` (the
`TemplateNotFound` kind) when the template path does not exist, with
`TemplateSyntaxError` when the template is malformed, and with
`UndefinedError` when the template performs an operation (attribute access)
on an undefined variable; but a bare `{{ name }}` reference to an undefined
variable renders as the empty string, producing output. -/
theorem render_template_spec (files : String → Option TemplateSource)
    (attrs : String → String → Option String) (path : String)
    (context : List (String × String)) :
    (files path = none →
      render_template files attrs path context = .error (.fileNotFound path)) ∧
    (∀ msg, files path = some (.malformed msg) →
      render_template files attrs path context =
        .error (.templateSyntaxError msg)) ∧
    (∀ pre name attr rest,
      files path = some (.wellFormed (pre ++ .varAttr name attr :: rest)) →
      (∀ it ∈ pre, ∃ s, it = .text s) →
      lookupCtx context name = none →
      render_template files attrs path context =
        .error (.undefinedError name)) ∧
    (∀ name, files path = some (.wellFormed [.var name]) →
      lookupCtx context name = none →
      render_template files attrs path context = .ok "") := by
  refine ⟨fun h => by simp [render_template, h], fun msg h => by
    simp [render_template, h], ?_, fun name h hundef => by
    simp [render_template, h, renderItems, hundef, Except.map]⟩
  intro pre name attr rest hfile hpre hundef
  unfold render_template
  rw [hfile]
  exact renderItems_varAttr_undef context attrs name attr rest pre hpre hundef

/-- Witness for C2: each failure mode and the undefined-variable success
mode of the theorem, at concrete templates. -/
theorem render_template_spec_witness :
    render_template (fun _ => none) (fun _ _ => none) "missing.j2" [] =
        .error (.fileNotFound "missing.j2") ∧
    render_template (fun _ => some (.malformed "unexpected end of template"))
        (fun _ _ => none) "bad.j2" [] =
        .error (.templateSyntaxError "unexpected end of template") ∧
    render_template (fun _ => some (.wellFormed [.varAttr "story" "name"]))
        (fun _ _ => none) "attr.j2" [] = .error (.undefinedError "story") ∧
    render_template (fun _ => some (.wellFormed [.var "workspace_name"]))
        (fun _ _ => none) "var.j2" [] = .ok "" :=
  ⟨(render_template_spec (fun _ => none) (fun _ _ => none) "missing.j2" []).1 rfl,
   (render_template_spec _ (fun _ _ => none) "bad.j2" []).2.1
     "unexpected end of template" rfl,
   (render_template_spec _ (fun _ _ => none) "attr.j2" []).2.2.1
     [] "story" "name" [] rfl (by simp) rfl,
   (render_template_spec _ (fun _ _ => none) "var.j2" []).2.2.2
     "workspace_name" rfl rfl⟩

/-! ### Workspace creation (`workspace.create_workspace`) -/

/-- The `story_context` dictionary passed to `create_workspace` by
`create_story_workspace`. -/
structure StoryContext where
  project_name : String
  story_name : String
  story_path : String
  kanban_directory : String
  git_url : String
  workspace_name : String
  deriving Repr, DecidableEq

/-- External inputs of `create_workspace`: template-directory contents,
port-bind and randomness oracles, and which optional source directories
exist. -/
structure CreateEnv where
  templateDirExists : Bool
  templateFeatures : List String
  bindOk : Nat → Bool
  choice : Nat → Fin 62
  templateFiles : String → Option TemplateSource
  attrs : String → String → Option String
  filterKanban : Bool
  legacyKanban : Bool
  scriptsExist : Bool
  entrypointExists : Bool

/-- `string.ascii_letters + string.digits`, the alphabet of
`_generate_secure_password`. -/
def passwordAlphabet : List Char :=
  "abcdefghijklmnopqrstuvwxyzABCDEFGHIJKLMNOPQRSTUVWXYZ0123456789".data

theorem passwordAlphabet_length : passwordAlphabet.length = 62 := rfl

/-- `workspace._generate_secure_password(length)`: join `length` draws of
`secrets.choice(alphabet)`; the draws are the oracle `choice`. -/
def generate_secure_password (choice : Nat → Fin 62) (length : Nat) : String :=
  String.mk ((List.range length).map (fun i =>
    passwordAlphabet.get (Fin.cast passwordAlphabet_length.symm (choice i))))

/-- The render-context dictionary `create_workspace` accumulates before
rendering. Represented as an association list whose lookup takes the first
match, so each later `dict.update` is prepended (the `python`-template
notebook port last, then the story fields, then ports and password over the
initial `workspace_name`). -/
def createContext (workspaceName : String) (postgresPort claudePort : Nat)
    (password : String) (story? : Option StoryContext)
    (jupyterPort? : Option Nat) : List (String × String) :=
  (match jupyterPort? with
   | some jp => [("jupyter_port", Nat.repr jp)]
   | none => []) ++
  (match story? with
   | some st =>
       [("project_name", st.project_name), ("story_name", st.story_name),
        ("story_path", st.story_path),
        ("kanban_directory", st.kanban_directory),
        ("git_url", st.git_url), ("workspace_name", st.workspace_name),
        ("git_repo_path", "/workspace/repo")]
   | none => []) ++
  [("postgres_port", Nat.repr postgresPort),
   ("claude_port", Nat.repr claudePort),
   ("postgres_password", password),
   ("workspace_name", workspaceName)]

/-- The port-allocation phase of `create_workspace`: postgres from 5433,
claude from 8001, and for the `python` template jupyter from 8888 — all
before any directory is created. -/
def create_workspace_ports (env : CreateEnv) (templateName : String) :
    Except PyError (Nat × Nat × Option Nat) := do
  let postgres ← find_available_port env.bindOk 5433 100
  let claude ← find_available_port env.bindOk 8001 100
  if templateName == "python" then
    let jup ← find_available_port env.bindOk 8888 100
    return (postgres, claude, some jup)
  else
    return (postgres, claude, none)

/-- One `TemplateSource` rendered with Jinja2 (the body of
`render_template` once the file is known to exist). -/
def renderSource (src : TemplateSource)
    (attrs : String → String → Option String)
    (context : List (String × String)) : Except PyError String :=
  match src with
  | .malformed msg => .error (.templateSyntaxError msg)
  | .wellFormed items => renderItems context attrs items

/-- The `for template_file in template_files` loop of `create_workspace`:
a missing template file is skipped with a warning; a render failure raises
`RuntimeError` at once (no cleanup); a rendered file is written to the
workspace root, except `.env` which goes into the inner `workspace/`
subdirectory. -/
def renderLoop (env : CreateEnv) (fs : FS)
    (workspaceDir workspaceSubdir : FsPath)
    (context : List (String × String)) :
    List String → FS × Except PyError Unit
  | [] => (fs, .ok ())
  | tf :: rest =>
    match env.templateFiles tf with
    | none => renderLoop env fs workspaceDir workspaceSubdir context rest
    | some src =>
      match renderSource src env.attrs context with
      | .error _ =>
          (fs, .error (.runtimeError ("Failed to render template " ++ tf)))
      | .ok _ =>
          let outName := tf.replace ".j2" ""
          let outPath := if outName == ".env" then workspaceSubdir ++ [outName]
            else workspaceDir ++ [outName]
          renderLoop env (fsAdd fs outPath) workspaceDir workspaceSubdir
            context rest

/-- The kanban linkage step of `create_workspace`: symlink when the
`.filter` repository convention is present, else a legacy copy, else a
warning only — both non-warning branches put `workspace/kanban` in place. -/
def kanbanLink (env : CreateEnv) (fs : FS) (workspaceSubdir : FsPath) : FS :=
  if env.filterKanban then fsAdd fs (workspaceSubdir ++ ["kanban"])
  else if env.legacyKanban then fsAdd fs (workspaceSubdir ++ ["kanban"])
  else fs

/-- The scripts-directory copy of `create_workspace` (skipped when the
source scripts directory does not exist). -/
def scriptsCopy (env : CreateEnv) (fs : FS) (workspaceDir : FsPath) : FS :=
  if env.scriptsExist then fsAdd fs (workspaceDir ++ ["scripts"]) else fs

/-- The entrypoint-script copy of `create_workspace` (skipped when the
template has no `entrypoint.sh`). -/
def entryCopy (env : CreateEnv) (fs : FS) (workspaceDir : FsPath) : FS :=
  if env.entrypointExists then
    fsAdd fs (workspaceDir ++ ["entrypoint.sh"])
  else fs

/-- `workspace.create_workspace(workspace_name, base_dir, template_name,
story_context)`. Returns the filesystem after the call together with the
raised error or the created workspace directory. The function performs no
cleanup of already-created paths when a later step raises. -/
def create_workspace (env : CreateEnv) (fs : FS) (baseDir : FsPath)
    (workspaceName : String) (templateName : String)
    (story? : Option StoryContext) : FS × Except PyError FsPath :=
  if fsContains fs (baseDir ++ [workspaceName]) then
    (fs, .error (.fileExists (baseDir ++ [workspaceName])))
  else if !env.templateDirExists then
    (fs, .error (.runtimeError ("Template not found: " ++ templateName)))
  else
    match create_workspace_ports env templateName with
    | .error e => (fs, .error e)
    | .ok (postgresPort, claudePort, jupyterPort?) =>
      match renderLoop env
          (fsAdd (fsAdd fs (baseDir ++ [workspaceName]))
            ((baseDir ++ [workspaceName]) ++ ["workspace"]))
          (baseDir ++ [workspaceName])
          ((baseDir ++ [workspaceName]) ++ ["workspace"])
          (createContext workspaceName postgresPort claudePort
            (generate_secure_password env.choice 24) story? jupyterPort?)
          ["Dockerfile.j2", "docker-compose.yml.j2", ".env.j2"] with
      | (fs3, .error e) => (fs3, .error e)
      | (fs3, .ok _) =>
        (entryCopy env
          (scriptsCopy env
            (kanbanLink env fs3
              ((baseDir ++ [workspaceName]) ++ ["workspace"]))
            (baseDir ++ [workspaceName]))
          (baseDir ++ [workspaceName]),
         .ok (baseDir ++ [workspaceName]))

/-- C10. The database credential generated during workspace creation —
`_generate_secure_password(24)`, stored under `postgres_password` in the
render context — is, for every random source, a string of exactly 24
characters, each an ASCII letter or digit. -/
theorem generate_secure_password_spec (choice : Nat → Fin 62) :
    (generate_secure_password choice 24).length = 24 ∧
    (∀ c ∈ (generate_secure_password choice 24).data, asciiAlnum c = true) ∧
    (∀ workspaceName postgresPort claudePort story? jupyterPort?,
      lookupCtx (createContext workspaceName postgresPort claudePort
          (generate_secure_password choice 24) story? jupyterPort?)
        "postgres_password" = some (generate_secure_password choice 24)) := by
  refine ⟨by simp [generate_secure_password, String.length], ?_, ?_⟩
  · intro c hc
    simp only [generate_secure_password, List.mem_map] at hc
    obtain ⟨i, _, rfl⟩ := hc
    have hmem : passwordAlphabet.get
        (Fin.cast passwordAlphabet_length.symm (choice i)) ∈ passwordAlphabet :=
      List.get_mem passwordAlphabet (choice i).1
        (by rw [passwordAlphabet_length]; exact (choice i).2)
    revert hmem
    have : ∀ c ∈ passwordAlphabet, asciiAlnum c = true := by decide
    exact this _
  · intro workspaceName postgresPort claudePort story? jupyterPort?
    cases story? <;> cases jupyterPort? <;>
      simp [createContext, lookupCtx, List.find?]

/-- Witness for C10 at the constant random source. -/
theorem generate_secure_password_spec_witness :
    (generate_secure_password (fun _ => (0 : Fin 62)) 24).length = 24 ∧
      asciiAlnum 'a' = true :=
  ⟨(generate_secure_password_spec (fun _ => (0 : Fin 62))).1,
    (generate_secure_password_spec (fun _ => (0 : Fin 62))).2.1 'a' (by decide)⟩

/-- A concrete creation environment in which rendering `Dockerfile.j2`
fails deterministically (the template performs attribute access on the
undefined variable `story`), while everything else is in order. -/
def renderFailEnv : CreateEnv where
  templateDirExists := true
  templateFeatures := []
  bindOk := fun _ => true
  choice := fun _ => 0
  templateFiles := fun tf =>
    if tf == "Dockerfile.j2" then
      some (.wellFormed [.varAttr "story" "branch"])
    else none
  attrs := fun _ _ => none
  filterKanban := false
  legacyKanban := false
  scriptsExist := false
  entrypointExists := false

/-- C1 counterexample: in `create_workspace` (the render path used by the
CLI), a deterministic render failure propagates the error, but the
workspace root directory created in step 4 is NOT removed — it still exists
when the call returns, refuting the claimed build atomicity for this
invocation of workspace creation. -/
theorem create_workspace_render_failure_keeps_root :
    (create_workspace renderFailEnv [] ["ws"] "demo" "default" none).2 =
      .error (.runtimeError "Failed to render template Dockerfile.j2") ∧
    fsContains (create_workspace renderFailEnv [] ["ws"] "demo" "default"
      none).1 ["ws", "demo"] = true :=
  ⟨rfl, rfl⟩

/-! ### `WorkspaceCommands.create` (commands/workspace.py) with
`WorkspaceResourceManager` cleanup

This is the creation path that does roll back: the body runs inside a
`with WorkspaceResourceManager()` block that tracks created paths and, when
the body raises, removes the tracked paths in reverse creation order
(untracked files all live beneath the tracked workspace root, which is
removed last). -/

/-- External inputs of `WorkspaceCommands.create`: whether `docker` is on
`PATH`, the contents of the source `kanban` directory and of the docker
template directory, and fault oracles for the copy loops and the
environment-file write (`none`/`false` = no fault, `some i` = the i-th copy
raises). -/
structure CmdCreateEnv where
  dockerAvailable : Bool
  sourceKanbanItems : Option (List String)
  kanbanCopyFailAt : Option Nat
  dockerTemplateFiles : List String
  dockerCopyFailAt : Option Nat
  envFileWriteFails : Bool

/-- `operations.WorkspaceFileOperations.cleanup_paths`: remove the tracked
paths in reverse order. -/
def cleanup_paths (fs : FS) (paths : List FsPath) : FS :=
  paths.reverse.foldl rmtree fs

/-- `operations.WorkspaceFileOperations.copy_kanban_structure`'s copy loop
over the items of the source kanban directory, with the fault oracle:
returns the filesystem, the tracked copied paths, and whether a copy
raised. -/
def copyKanbanItems (kanbanDir : FsPath) (failAt : Option Nat) :
    FS → List FsPath → Nat → List String → FS × List FsPath × Bool
  | fs, tracked, _, [] => (fs, tracked, false)
  | fs, tracked, i, item :: rest =>
    if failAt = some i then (fs, tracked, true)
    else
      copyKanbanItems kanbanDir failAt (fsAdd fs (kanbanDir ++ [item]))
        (tracked ++ [kanbanDir ++ [item]]) (i + 1) rest

/-- `WorkspaceDockerOperations.create_docker_config`'s copy loop: template
files are copied into the workspace root (not tracked), with the fault
oracle. -/
def copyDockerFiles (workspacePath : FsPath) (failAt : Option Nat) :
    FS → Nat → List String → FS × Bool
  | fs, _, [] => (fs, false)
  | fs, i, f :: rest =>
    if failAt = some i then (fs, true)
    else
      copyDockerFiles workspacePath failAt
        (fsAdd fs (workspacePath ++ [f])) (i + 1) rest

/-- The kanban-copy stage of the managed body
(`WorkspaceFileOperations.copy_kanban_structure`'s item loop): skipped when
a previous stage raised; the copied paths are appended to the tracked
list. `none` items means the source kanban directory does not exist, in
which case only the (already created) kanban directory remains. -/
def cmdKanbanStage (kanbanDir : FsPath) (items? : Option (List String))
    (failAt : Option Nat) :
    FS × List FsPath × Bool → FS × List FsPath × Bool
  | (fs, tracked, true) => (fs, tracked, true)
  | (fs, tracked, false) =>
    match items? with
    | none => (fs, tracked, false)
    | some items =>
      match copyKanbanItems kanbanDir failAt fs [] 0 items with
      | (fs2, copied, b) => (fs2, tracked ++ copied, b)

/-- The docker-configuration stage
(`WorkspaceDockerOperations.create_docker_config`): copies template files
into the workspace root without tracking them; skipped when a previous
stage raised. -/
def cmdDockerStage (workspacePath : FsPath) (failAt : Option Nat)
    (templateFileNames : List String) :
    FS × List FsPath × Bool → FS × List FsPath × Bool
  | (fs, tracked, true) => (fs, tracked, true)
  | (fs, tracked, false) =>
    match copyDockerFiles workspacePath failAt fs 0 templateFileNames with
    | (fs2, b) => (fs2, tracked, b)

/-- The environment-file stage
(`WorkspaceFileOperations.create_environment_file`): writes
`workspace/.env` (untracked); skipped when a previous stage raised. -/
def cmdEnvStage (writeFails : Bool) (workspaceDir : FsPath) :
    FS × List FsPath × Bool → FS × List FsPath × Bool
  | (fs, tracked, true) => (fs, tracked, true)
  | (fs, tracked, false) =>
    if writeFails then (fs, tracked, true)
    else (fsAdd fs (workspaceDir ++ [".env"]), tracked, false)

/-- The managed body of `WorkspaceCommands.create.create_action` (the code
inside `with WorkspaceResourceManager()`): directory structure, kanban
copy, docker configuration, environment file; once a stage raises, the
following stages do not run. Returns the filesystem, the tracked paths at
the moment of return/raise, and whether the body raised. -/
def cmdCreateBody (env : CmdCreateEnv) (fs : FS) (workspacePath : FsPath) :
    FS × List FsPath × Bool :=
  cmdEnvStage env.envFileWriteFails (workspacePath ++ ["workspace"])
    (cmdDockerStage workspacePath env.dockerCopyFailAt
      env.dockerTemplateFiles
      (cmdKanbanStage ((workspacePath ++ ["workspace"]) ++ ["kanban"])
        env.sourceKanbanItems env.kanbanCopyFailAt
        (fsAdd (fsAdd (fsAdd fs workspacePath)
            (workspacePath ++ ["workspace"]))
          ((workspacePath ++ ["workspace"]) ++ ["kanban"]),
         [workspacePath, workspacePath ++ ["workspace"],
          (workspacePath ++ ["workspace"]) ++ ["kanban"]], false)))

/-- `WorkspaceCommands.create.create_action`: validation (name, template,
existence, docker availability) and then the resource-managed body; when
the body raises, `WorkspaceResourceManager.__exit__` runs `cleanup_all`,
which removes the tracked paths in reverse order, and the exception
propagates. `.ok` carries the created workspace path. -/
def cmd_create (env : CmdCreateEnv) (fs : FS) (name : List Char)
    (template : String) (baseDir : FsPath) : FS × Except PyError FsPath :=
  match validate_name name "workspace_name" with
  | .error e => (fs, .error e)
  | .ok _ =>
    if !(template == "default" || template == "minimal" ||
        template == "python") then
      (fs, .error (.validationError "template" template
        "must be one of: default, minimal, python"))
    else if fsContains fs (baseDir ++ [String.mk name]) then
      (fs, .error (.validationError "workspace_path" "" "already exists"))
    else if !env.dockerAvailable then
      (fs, .error (.runtimeError "Docker is required but not found in PATH"))
    else
      match cmdCreateBody env fs (baseDir ++ [String.mk name]) with
      | (fs', tracked, true) =>
        (cleanup_paths fs' tracked,
          .error (.runtimeError "Workspace creation failed"))
      | (fs', _, false) => (fs', .ok (baseDir ++ [String.mk name]))

theorem fsContains_iff (fs : FS) (p : FsPath) :
    fsContains fs p = true ↔ p ∈ fs := by
  simp [fsContains]

theorem isUnder_refl (p : FsPath) : isUnder p p = true := by
  induction p with
  | nil => rfl
  | cons a r ih => simp [isUnder, ih]

theorem isUnder_append (root ext : FsPath) :
    isUnder root (root ++ ext) = true := by
  induction root with
  | nil => rfl
  | cons a r ih => simp [isUnder, ih]

theorem isUnder_append_right {root q : FsPath} (h : isUnder root q = true)
    (ext : FsPath) : isUnder root (q ++ ext) = true := by
  induction root generalizing q with
  | nil => rfl
  | cons a r ih =>
    cases q with
    | nil => exact absurd h (by simp [isUnder])
    | cons b s =>
      simp only [isUnder, Bool.and_eq_true_iff] at h
      simp only [List.cons_append, isUnder, Bool.and_eq_true_iff]
      exact ⟨h.1, ih h.2⟩

theorem mem_fsAdd {fs : FS} {q p : FsPath} (h : p ∈ fsAdd fs q) :
    p ∈ fs ∨ p = q := by
  unfold fsAdd at h
  split at h
  · exact Or.inl h
  · rcases List.mem_cons.mp h with rfl | h2
    · exact Or.inr rfl
    · exact Or.inl h2

theorem mem_rmtree {fs : FS} {q p : FsPath} (h : p ∈ rmtree fs q) :
    p ∈ fs ∧ isUnder q p = false := by
  unfold rmtree at h
  have h2 := List.mem_filter.mp h
  exact ⟨h2.1, by simpa using h2.2⟩

theorem mem_foldl_rmtree : ∀ (l : List FsPath) (fs : FS) (p : FsPath),
    p ∈ l.foldl rmtree fs → p ∈ fs := by
  intro l
  induction l with
  | nil => intro fs p h; exact h
  | cons q t ih =>
    intro fs p h
    exact (mem_rmtree (ih (rmtree fs q) p h)).1

/-- A member of the cleanup result was already in the pre-cleanup
filesystem and does not lie beneath the first tracked path (which is
removed last). -/
theorem mem_cleanup_head (wp : FsPath) (rest : List FsPath) (fs : FS)
    (p : FsPath) (h : p ∈ cleanup_paths fs (wp :: rest)) :
    p ∈ fs ∧ isUnder wp p = false := by
  unfold cleanup_paths at h
  rw [List.reverse_cons, List.foldl_append] at h
  simp only [List.foldl_cons, List.foldl_nil] at h
  have h2 := mem_rmtree h
  exact ⟨mem_foldl_rmtree _ _ _ h2.1, h2.2⟩

/-- Everything in `fs` is in `fs0` or beneath `wp` — the invariant the
managed body of `cmd_create` maintains over the initial filesystem. -/
def SubUnder (fs0 : FS) (wp : FsPath) (fs : FS) : Prop :=
  ∀ p, p ∈ fs → p ∈ fs0 ∨ isUnder wp p = true

theorem subUnder_refl (fs0 : FS) (wp : FsPath) : SubUnder fs0 wp fs0 :=
  fun _ hp => Or.inl hp

theorem subUnder_fsAdd {fs0 fs : FS} {wp q : FsPath}
    (h : SubUnder fs0 wp fs) (hq : isUnder wp q = true) :
    SubUnder fs0 wp (fsAdd fs q) := by
  intro p hp
  rcases mem_fsAdd hp with hp2 | rfl
  · exact h p hp2
  · exact Or.inr hq

theorem subUnder_copyKanban {fs0 : FS} {wp kanbanDir : FsPath}
    (failAt : Option Nat) (hk : isUnder wp kanbanDir = true) :
    ∀ (items : List String) (fs : FS) (tr : List FsPath) (i : Nat),
      SubUnder fs0 wp fs →
      SubUnder fs0 wp (copyKanbanItems kanbanDir failAt fs tr i items).1 := by
  intro items
  induction items with
  | nil => intro fs tr i h; exact h
  | cons item rest ih =>
    intro fs tr i h
    unfold copyKanbanItems
    split
    · exact h
    · exact ih _ _ _ (subUnder_fsAdd h (isUnder_append_right hk [item]))

theorem subUnder_copyDocker {fs0 : FS} {wp workspacePath : FsPath}
    (failAt : Option Nat) (hw : isUnder wp workspacePath = true) :
    ∀ (files' : List String) (fs : FS) (i : Nat),
      SubUnder fs0 wp fs →
      SubUnder fs0 wp (copyDockerFiles workspacePath failAt fs i files').1 := by
  intro files'
  induction files' with
  | nil => intro fs i h; exact h
  | cons f rest ih =>
    intro fs i h
    unfold copyDockerFiles
    split
    · exact h
    · exact ih _ _ (subUnder_fsAdd h (isUnder_append_right hw [f]))

theorem cmdKanbanStage_spec (fs0 : FS) (wp kanbanDir : FsPath)
    (items? : Option (List String)) (failAt : Option Nat)
    (hk : isUnder wp kanbanDir = true) (x : FS × List FsPath × Bool)
    (hfs : SubUnder fs0 wp x.1) :
    SubUnder fs0 wp (cmdKanbanStage kanbanDir items? failAt x).1 ∧
      ∃ ext, (cmdKanbanStage kanbanDir items? failAt x).2.1 = x.2.1 ++ ext := by
  rcases x with ⟨fs, tracked, st⟩
  cases st
  · cases items? with
    | none => exact ⟨hfs, [], by simp [cmdKanbanStage]⟩
    | some items =>
      have hcopy := subUnder_copyKanban failAt hk items fs [] 0 hfs
      rcases h : copyKanbanItems kanbanDir failAt fs [] 0 items
        with ⟨fs2, copied, b⟩
      rw [h] at hcopy
      refine ⟨?_, copied, ?_⟩
      · simpa [cmdKanbanStage, h] using hcopy
      · simp [cmdKanbanStage, h]
  · exact ⟨hfs, [], by simp [cmdKanbanStage]⟩

theorem cmdDockerStage_spec (fs0 : FS) (wp : FsPath) (failAt : Option Nat)
    (templateFileNames : List String) (x : FS × List FsPath × Bool)
    (hfs : SubUnder fs0 wp x.1) :
    SubUnder fs0 wp (cmdDockerStage wp failAt templateFileNames x).1 ∧
      (cmdDockerStage wp failAt templateFileNames x).2.1 = x.2.1 := by
  rcases x with ⟨fs, tracked, st⟩
  cases st
  · have hcopy := subUnder_copyDocker failAt (isUnder_refl wp)
      templateFileNames fs 0 hfs
    rcases h : copyDockerFiles wp failAt fs 0 templateFileNames
      with ⟨fs2, b⟩
    rw [h] at hcopy
    refine ⟨?_, ?_⟩
    · simpa [cmdDockerStage, h] using hcopy
    · simp [cmdDockerStage, h]
  · exact ⟨hfs, rfl⟩

theorem cmdEnvStage_spec (fs0 : FS) (wp wd : FsPath) (writeFails : Bool)
    (hwd : isUnder wp wd = true) (x : FS × List FsPath × Bool)
    (hfs : SubUnder fs0 wp x.1) :
    SubUnder fs0 wp (cmdEnvStage writeFails wd x).1 ∧
      (cmdEnvStage writeFails wd x).2.1 = x.2.1 := by
  rcases x with ⟨fs, tracked, st⟩
  cases st
  · simp only [cmdEnvStage]
    split
    · exact ⟨hfs, rfl⟩
    · exact ⟨subUnder_fsAdd hfs (isUnder_append_right hwd [".env"]), rfl⟩
  · exact ⟨hfs, rfl⟩

theorem cmdCreateBody_subUnder (env : CmdCreateEnv) (fs : FS) (wp : FsPath) :
    SubUnder fs wp (cmdCreateBody env fs wp).1 := by
  have hwd : isUnder wp (wp ++ ["workspace"]) = true := isUnder_append wp _
  have hkd : isUnder wp ((wp ++ ["workspace"]) ++ ["kanban"]) = true :=
    isUnder_append_right hwd ["kanban"]
  have h3 : SubUnder fs wp (fsAdd (fsAdd (fsAdd fs wp) (wp ++ ["workspace"]))
      ((wp ++ ["workspace"]) ++ ["kanban"])) :=
    subUnder_fsAdd (subUnder_fsAdd (subUnder_fsAdd (subUnder_refl fs wp)
      (isUnder_refl wp)) hwd) hkd
  have hk := cmdKanbanStage_spec fs wp ((wp ++ ["workspace"]) ++ ["kanban"])
    env.sourceKanbanItems env.kanbanCopyFailAt hkd
    (_, [wp, wp ++ ["workspace"], (wp ++ ["workspace"]) ++ ["kanban"]],
      false) h3
  have hd := cmdDockerStage_spec fs wp env.dockerCopyFailAt
    env.dockerTemplateFiles _ hk.1
  have he := cmdEnvStage_spec fs wp (wp ++ ["workspace"])
    env.envFileWriteFails hwd _ hd.1
  exact he.1

theorem cmdCreateBody_tracked_head (env : CmdCreateEnv) (fs : FS)
    (wp : FsPath) : ∃ rest, (cmdCreateBody env fs wp).2.1 = wp :: rest := by
  have hwd : isUnder wp (wp ++ ["workspace"]) = true := isUnder_append wp _
  have hkd : isUnder wp ((wp ++ ["workspace"]) ++ ["kanban"]) = true :=
    isUnder_append_right hwd ["kanban"]
  have h3 : SubUnder fs wp (fsAdd (fsAdd (fsAdd fs wp) (wp ++ ["workspace"]))
      ((wp ++ ["workspace"]) ++ ["kanban"])) :=
    subUnder_fsAdd (subUnder_fsAdd (subUnder_fsAdd (subUnder_refl fs wp)
      (isUnder_refl wp)) hwd) hkd
  have hk := cmdKanbanStage_spec fs wp ((wp ++ ["workspace"]) ++ ["kanban"])
    env.sourceKanbanItems env.kanbanCopyFailAt hkd
    (fsAdd (fsAdd (fsAdd fs wp) (wp ++ ["workspace"]))
        ((wp ++ ["workspace"]) ++ ["kanban"]),
      [wp, wp ++ ["workspace"], (wp ++ ["workspace"]) ++ ["kanban"]], false)
    h3
  obtain ⟨ext, hext⟩ := hk.2
  have hd := cmdDockerStage_spec fs wp env.dockerCopyFailAt
    env.dockerTemplateFiles
    (cmdKanbanStage ((wp ++ ["workspace"]) ++ ["kanban"])
      env.sourceKanbanItems env.kanbanCopyFailAt
      (fsAdd (fsAdd (fsAdd fs wp) (wp ++ ["workspace"]))
          ((wp ++ ["workspace"]) ++ ["kanban"]),
        [wp, wp ++ ["workspace"], (wp ++ ["workspace"]) ++ ["kanban"]],
        false))
    hk.1
  have he := cmdEnvStage_spec fs wp (wp ++ ["workspace"])
    env.envFileWriteFails hwd
    (cmdDockerStage wp env.dockerCopyFailAt env.dockerTemplateFiles
      (cmdKanbanStage ((wp ++ ["workspace"]) ++ ["kanban"])
        env.sourceKanbanItems env.kanbanCopyFailAt
        (fsAdd (fsAdd (fsAdd fs wp) (wp ++ ["workspace"]))
            ((wp ++ ["workspace"]) ++ ["kanban"]),
          [wp, wp ++ ["workspace"], (wp ++ ["workspace"]) ++ ["kanban"]],
          false)))
    hd.1
  refine ⟨[wp ++ ["workspace"], (wp ++ ["workspace"]) ++ ["kanban"]] ++ ext,
    ?_⟩
  unfold cmdCreateBody
  rw [he.2, hd.2, hext]
  rfl

theorem cmd_create_error_fs (env : CmdCreateEnv) (fs : FS)
    (name : List Char) (template : String) (baseDir : FsPath) (fs' : FS)
    (e : PyError)
    (h : cmd_create env fs name template baseDir = (fs', .error e)) :
    fs' = fs ∨ ∃ bfs tracked,
      cmdCreateBody env fs (baseDir ++ [String.mk name]) =
        (bfs, tracked, true) ∧ fs' = cleanup_paths bfs tracked := by
  unfold cmd_create at h
  split at h
  · exact Or.inl (show fs = fs' from congrArg Prod.fst h).symm
  · split at h
    · exact Or.inl (show fs = fs' from congrArg Prod.fst h).symm
    · split at h
      · exact Or.inl (show fs = fs' from congrArg Prod.fst h).symm
      · split at h
        · exact Or.inl (show fs = fs' from congrArg Prod.fst h).symm
        · rcases hbody : cmdCreateBody env fs (baseDir ++ [String.mk name])
            with ⟨bfs, tracked, braised⟩
          rw [hbody] at h
          cases braised
          · exact absurd
              (show Except.ok (baseDir ++ [String.mk name]) =
                  Except.error e from congrArg Prod.snd h)
              (by simp)
          · exact Or.inr ⟨bfs, tracked, rfl,
              (show cleanup_paths bfs tracked = fs' from
                congrArg Prod.fst h).symm⟩

/-- C1 (amended). Build atomicity holds for the resource-managed creation
path `WorkspaceCommands.create`: whenever the call returns an error —
whether from validation or from a step raising inside the managed block —
every filesystem path the call created has been removed before it returns
(nothing remains that was not already present), and in particular the
workspace root directory does not remain when it did not pre-exist. It
does NOT hold for `workspace.create_workspace`, which performs no
rollback: see the counterexample, where a deterministic render failure
leaves the workspace root directory in existence. -/
theorem cmd_create_rolls_back (env : CmdCreateEnv) (fs : FS)
    (name : List Char) (template : String) (baseDir : FsPath) (fs' : FS)
    (e : PyError)
    (h : cmd_create env fs name template baseDir = (fs', .error e)) :
    (∀ p, fsContains fs' p = true → fsContains fs p = true) ∧
    (fsContains fs (baseDir ++ [String.mk name]) = false →
      fsContains fs' (baseDir ++ [String.mk name]) = false) := by
  have main : ∀ p, fsContains fs' p = true → fsContains fs p = true := by
    intro p hp
    rw [fsContains_iff] at hp ⊢
    rcases cmd_create_error_fs env fs name template baseDir fs' e h with
      rfl | ⟨bfs, tracked, hbody, rfl⟩
    · exact hp
    · obtain ⟨rest, htr⟩ := cmdCreateBody_tracked_head env fs
        (baseDir ++ [String.mk name])
      rw [hbody] at htr
      have htr2 : tracked = (baseDir ++ [String.mk name]) :: rest := htr
      have hsub := cmdCreateBody_subUnder env fs (baseDir ++ [String.mk name])
      rw [hbody] at hsub
      have hsub2 : SubUnder fs (baseDir ++ [String.mk name]) bfs := hsub
      rw [htr2] at hp
      have hmem := mem_cleanup_head _ rest bfs p hp
      rcases hsub2 p hmem.1 with h2 | h2
      · exact h2
      · rw [hmem.2] at h2
        cases h2
  refine ⟨main, fun hpre => ?_⟩
  cases hcon : fsContains fs' (baseDir ++ [String.mk name])
  · rfl
  · rw [main _ hcon] at hpre
    cases hpre

/-- A concrete command-creation environment whose environment-file write
raises, with docker available and nothing else to copy. -/
def cmdFailEnv : CmdCreateEnv where
  dockerAvailable := true
  sourceKanbanItems := none
  kanbanCopyFailAt := none
  dockerTemplateFiles := []
  dockerCopyFailAt := none
  envFileWriteFails := true

/-- Witness for C1: at `cmdFailEnv` the failed creation leaves a pre-existing
unrelated path untouched and the workspace root absent. -/
theorem cmd_create_rolls_back_witness :
    fsContains [["other"]] ["other"] = true ∧
      fsContains (cmd_create cmdFailEnv [[ "other" ]] ['d', 'e', 'm', 'o']
        "default" ["ws"]).1 ["ws", "demo"] = false :=
  have happ := cmd_create_rolls_back cmdFailEnv [["other"]]
    ['d', 'e', 'm', 'o'] "default" ["ws"]
    (cmd_create cmdFailEnv [["other"]] ['d', 'e', 'm', 'o'] "default"
      ["ws"]).1
    (.runtimeError "Workspace creation failed") rfl
  ⟨happ.1 ["other"] rfl, happ.2 rfl⟩

/-! ### Workspace lifecycle commands (`commands/workspace.py`) -/

/-- `types.entities.Workspace` as the lifecycle commands use it (the
phantom state parameter is compile-time only; `story_name`, `environment`
and `created_at` are carried through unchanged and omitted here). -/
structure Workspace where
  name : String
  path : FsPath
  template : String
  ports : List (String × Nat)
  deriving Repr, DecidableEq

/-- A concrete workspace used by the lifecycle examples. -/
def demoWs (ports : List (String × Nat)) : Workspace :=
  ⟨"demo", ["ws", "demo"], "default", ports⟩

/-- `command_utils.run_docker_command`: note `check` defaults to `true`. -/
def run_docker_command (returncode : Nat) (check : Bool := true) :
    Except PyError CommandResult :=
  run_command returncode check

/-- `WorkspaceCommands.stop.stop_action`. `downReturncode` is the exit code
of `docker compose down`. The call site passes no `check=False`, so a
non-zero exit raises `subprocess.CalledProcessError` out of `run_command`
before the `if not result.success: logger.warning(...)` branch — that
warning branch is unreachable. On success the returned `Stopped` workspace
has its port map cleared. -/
def stop_action (downReturncode : Nat) (w : Workspace) :
    Except PyError Workspace :=
  match run_docker_command downReturncode with
  | .error e => .error e
  | .ok _r => .ok { w with ports := [] }

/-- C3 (evaluating the code at the failing input): when `docker compose
down` exits non-zero, `stop_action` raises `CalledProcessError` — it
neither warns-only nor clears the recorded port mapping, contradicting the
claim; when the command exits 0 the ports are cleared, and a second stop
on the already-stopped workspace (whose `down` exits 0 again) also
succeeds with an empty port map. -/
theorem stop_action_raises_on_down_failure :
    stop_action 1 (demoWs [("claude", 8001)]) =
      .error (.calledProcessError 1) ∧
    stop_action 0 (demoWs [("claude", 8001)]) =
      .ok (demoWs []) ∧
    stop_action 0 (demoWs []) =
      .ok (demoWs []) :=
  ⟨rfl, rfl, rfl⟩

/-- `operations.WorkspaceDockerOperations.allocate_ports`: fixed ports per
template (`base_port = 8000`, claude at `base_port + 1`). -/
def allocate_ports (template : String) : List (String × Nat) :=
  [("claude", 8001)] ++
  (if template == "default" || template == "python" then
    [("postgres", 5433)] else []) ++
  (if template == "python" then [("jupyter", 8888)] else [])

/-- External inputs of `WorkspaceCommands.start.start_action`. -/
structure StartEnv where
  portUpdateOk : Bool
  upReturncode : Nat
  downReturncode : Nat

/-- `WorkspaceCommands.start.start_action`, recording the docker compose
invocations it performs. `update_docker_ports` rewrites the orchestration
file in place (the set of existing paths is unchanged); its failure is
wrapped into a `RuntimeError` before any container command runs.
`docker compose up -d` runs with the default `check=True`, so a non-zero
exit raises `CalledProcessError` (skipping the unreachable
`if not result.success` log-gathering branch); the inner handler catches
it, runs a best-effort `docker compose down` with `check=False` (which
never raises), and re-raises. The workspace directory is never deleted. -/
def start_action (env : StartEnv) (fs : FS) (w : Workspace) :
    FS × List (List String) × Except PyError Workspace :=
  if !env.portUpdateOk then
    (fs, [], .error (.runtimeError "Port configuration failed"))
  else
    match run_docker_command env.upReturncode with
    | .error e =>
        (fs, [["compose", "up", "-d"], ["compose", "down"]], .error e)
    | .ok _ =>
        (fs, [["compose", "up", "-d"]],
          .ok { w with ports := allocate_ports w.template })

/-- C8. Start failure frame: when `docker compose up -d` fails, start
performs the best-effort `docker compose down` after the `up`, propagates
the error, and leaves the filesystem — in particular the workspace
directory — exactly as it was (only the orchestration file's content was
rewritten, which changes no path). -/
theorem start_action_failure_frame (env : StartEnv) (fs : FS)
    (w : Workspace) (hup : env.portUpdateOk = true)
    (hfail : env.upReturncode ≠ 0) :
    (start_action env fs w).1 = fs ∧
    (start_action env fs w).2.1 =
      [["compose", "up", "-d"], ["compose", "down"]] ∧
    (start_action env fs w).2.2 =
      .error (.calledProcessError env.upReturncode) := by
  unfold start_action run_docker_command run_command
  simp [hup, hfail]

/-- Witness for C8 at a concrete failed start (exit code 1). -/
theorem start_action_failure_frame_witness :
    (start_action ⟨true, 1, 0⟩ [["ws", "demo"]]
      (demoWs [])).1 = [["ws", "demo"]] ∧
    (start_action ⟨true, 1, 0⟩ [["ws", "demo"]]
      (demoWs [])).2.1 =
      [["compose", "up", "-d"], ["compose", "down"]] ∧
    (start_action ⟨true, 1, 0⟩ [["ws", "demo"]]
      (demoWs [])).2.2 = .error (.calledProcessError 1) :=
  start_action_failure_frame ⟨true, 1, 0⟩ [["ws", "demo"]]
    (demoWs []) rfl (by decide)

/-! ### `stop_workspace` / `delete_workspace` (workspace.py) -/

/-- Container-runtime state consulted by stop/delete. -/
structure DockerEnv where
  psOutputNonEmpty : Bool
  downReturncode : Nat
  deriving Repr, DecidableEq

/-- `workspace.stop_workspace(workspace_name, base_dir)`: requires the
workspace directory and its `docker-compose.yml` to exist; runs
`docker compose down` with `check=True`, wrapping a failure into
`RuntimeError`. No filesystem change. -/
def stop_workspace (env : DockerEnv) (fs : FS) (baseDir : FsPath)
    (workspaceName : String) : Except PyError Unit :=
  if !(fsContains fs (baseDir ++ [workspaceName])) then
    .error (.runtimeError "Workspace not found")
  else if !(fsContains fs
      ((baseDir ++ [workspaceName]) ++ ["docker-compose.yml"])) then
    .error (.runtimeError "No docker-compose.yml found")
  else if !(env.downReturncode == 0) then
    .error (.runtimeError "Failed to stop workspace")
  else
    .ok ()

/-- `workspace.cleanup_git_repository`: remove `workspace/repo` beneath the
workspace directory when it exists; any exception is swallowed. -/
def cleanup_git_repository (fs : FS) (workspaceDir : FsPath) : FS :=
  if fsContains fs (workspaceDir ++ ["workspace", "repo"]) then
    rmtree fs (workspaceDir ++ ["workspace", "repo"])
  else fs

/-- `workspace.delete_workspace(workspace_name, base_dir, force)`:
`RuntimeError` (`NotFound` kind) when the directory is missing;
`RuntimeError` (`Busy` kind) when `docker compose ps -q` printed output
and `force` is false, with the filesystem untouched; otherwise — when
running with `force`, `stop_workspace` is attempted first and any
`RuntimeError` from it only logged — the repo subtree is removed
(`cleanup_git_repository`) and then the whole workspace directory
(`shutil.rmtree`). The middle component records whether the best-effort
stop was attempted. -/
def delete_workspace (env : DockerEnv) (fs : FS) (baseDir : FsPath)
    (workspaceName : String) (force : Bool) :
    FS × Bool × Except PyError Unit :=
  if !(fsContains fs (baseDir ++ [workspaceName])) then
    (fs, false, .error (.runtimeError "Workspace not found"))
  else if env.psOutputNonEmpty && !force then
    (fs, false, .error (.runtimeError "Workspace is currently running"))
  else
    (rmtree (cleanup_git_repository fs (baseDir ++ [workspaceName]))
        (baseDir ++ [workspaceName]),
      env.psOutputNonEmpty && force, .ok ())

theorem mem_rmtree_iff {fs : FS} {q p : FsPath} :
    p ∈ rmtree fs q ↔ p ∈ fs ∧ isUnder q p = false := by
  unfold rmtree
  rw [List.mem_filter]
  simp

theorem isUnder_trans : ∀ {a b c : FsPath}, isUnder a b = true →
    isUnder b c = true → isUnder a c = true := by
  intro a
  induction a with
  | nil => intro b c _ _; rfl
  | cons x r ih =>
    intro b c h1 h2
    cases b with
    | nil => exact absurd h1 (by simp [isUnder])
    | cons y s =>
      cases c with
      | nil => exact absurd h2 (by simp [isUnder])
      | cons z t =>
        simp only [isUnder, Bool.and_eq_true_iff] at h1 h2 ⊢
        obtain ⟨hxy, h1s⟩ := h1
        obtain ⟨hyz, h2s⟩ := h2
        have exy : x = y := by simpa using hxy
        have eyz : y = z := by simpa using hyz
        exact ⟨by simp [exy, eyz], ih h1s h2s⟩

theorem mem_cleanup_git {fs : FS} {wsDir p : FsPath} :
    p ∈ cleanup_git_repository fs wsDir → p ∈ fs := by
  unfold cleanup_git_repository
  split
  · intro h; exact (mem_rmtree_iff.mp h).1
  · exact id

theorem mem_cleanup_git_of_not_under {fs : FS} {wsDir p : FsPath}
    (hp : p ∈ fs) (hnu : isUnder wsDir p = false) :
    p ∈ cleanup_git_repository fs wsDir := by
  unfold cleanup_git_repository
  split
  · refine mem_rmtree_iff.mpr ⟨hp, ?_⟩
    cases hru : isUnder (wsDir ++ ["workspace", "repo"]) p
    · rfl
    · have := isUnder_trans (isUnder_append wsDir ["workspace", "repo"]) hru
      rw [hnu] at this
      cases this
  · exact hp

/-- C5. Delete precondition: delete fails with `NotFound` when the
workspace directory does not exist; when the workspace is reported Running
and `force` is false it fails with `Busy` and the filesystem is untouched;
with `force` it succeeds, attempting the best-effort stop exactly when the
workspace was reported Running (and independently of whether that stop's
`docker compose down` fails), after which the workspace directory no
longer exists, everything beneath it (repo subtree included) is gone, and
every path outside the workspace directory is untouched. -/
theorem delete_workspace_spec (env : DockerEnv) (fs : FS) (baseDir : FsPath)
    (workspaceName : String) :
    (fsContains fs (baseDir ++ [workspaceName]) = false →
      ∀ force, delete_workspace env fs baseDir workspaceName force =
        (fs, false, .error (.runtimeError "Workspace not found"))) ∧
    (fsContains fs (baseDir ++ [workspaceName]) = true →
      env.psOutputNonEmpty = true →
      delete_workspace env fs baseDir workspaceName false =
        (fs, false, .error (.runtimeError "Workspace is currently running"))) ∧
    (fsContains fs (baseDir ++ [workspaceName]) = true →
      (delete_workspace env fs baseDir workspaceName true).2.2 = .ok () ∧
      (delete_workspace env fs baseDir workspaceName true).2.1 =
        env.psOutputNonEmpty ∧
      fsContains (delete_workspace env fs baseDir workspaceName true).1
        (baseDir ++ [workspaceName]) = false ∧
      (∀ p, fsContains (delete_workspace env fs baseDir workspaceName true).1
          p = true →
        fsContains fs p = true ∧
          isUnder (baseDir ++ [workspaceName]) p = false) ∧
      (∀ p, fsContains fs p = true →
        isUnder (baseDir ++ [workspaceName]) p = false →
        fsContains (delete_workspace env fs baseDir workspaceName true).1
          p = true)) := by
  refine ⟨fun hnf force => ?_, fun hex hrun => ?_, fun hex => ?_⟩
  · unfold delete_workspace
    rw [hnf]
    rfl
  · unfold delete_workspace
    rw [hex, hrun]
    rfl
  · have hres : delete_workspace env fs baseDir workspaceName true =
        (rmtree (cleanup_git_repository fs (baseDir ++ [workspaceName]))
            (baseDir ++ [workspaceName]),
          env.psOutputNonEmpty && true, .ok ()) := by
      unfold delete_workspace
      rw [hex]
      simp
    rw [hres]
    refine ⟨rfl, by simp, ?_, fun p hp => ?_, fun p hp hnu => ?_⟩
    · cases hcon : fsContains
          (rmtree (cleanup_git_repository fs (baseDir ++ [workspaceName]))
            (baseDir ++ [workspaceName])) (baseDir ++ [workspaceName])
      · rfl
      · rw [fsContains_iff] at hcon
        have := (mem_rmtree_iff.mp hcon).2
        rw [isUnder_refl] at this
        cases this
    · rw [fsContains_iff] at hp ⊢
      obtain ⟨hmem, hnu⟩ := mem_rmtree_iff.mp hp
      exact ⟨mem_cleanup_git hmem, hnu⟩
    · rw [fsContains_iff] at hp ⊢
      exact mem_rmtree_iff.mpr ⟨mem_cleanup_git_of_not_under hp hnu, hnu⟩

/-- Witness for C5 across its three scenarios: a missing workspace, a
running workspace without force, and a forced delete of a running
workspace (with a failing `docker compose down`, exit code 7, showing the
stop is best-effort). -/
theorem delete_workspace_spec_witness :
    delete_workspace ⟨true, 7⟩ [] ["ws"] "demo" false =
      ([], false, .error (.runtimeError "Workspace not found")) ∧
    delete_workspace ⟨true, 7⟩ [["ws", "demo"]] ["ws"] "demo" false =
      ([["ws", "demo"]], false,
        .error (.runtimeError "Workspace is currently running")) ∧
    (delete_workspace ⟨true, 7⟩ [["ws", "demo"], ["other"]] ["ws"] "demo"
        true).2.2 = .ok () ∧
    fsContains (delete_workspace ⟨true, 7⟩ [["ws", "demo"], ["other"]]
        ["ws"] "demo" true).1 ["ws", "demo"] = false ∧
    fsContains (delete_workspace ⟨true, 7⟩ [["ws", "demo"], ["other"]]
        ["ws"] "demo" true).1 ["other"] = true :=
  have h3 := (delete_workspace_spec ⟨true, 7⟩ [["ws", "demo"], ["other"]]
    ["ws"] "demo").2.2 rfl
  ⟨(delete_workspace_spec ⟨true, 7⟩ [] ["ws"] "demo").1 rfl false,
    (delete_workspace_spec ⟨true, 7⟩ [["ws", "demo"]] ["ws"] "demo").2.1
      rfl rfl,
    h3.1, h3.2.2.1, h3.2.2.2.2 ["other"] rfl rfl⟩

/-! ### Story workspaces (`workspace.create_story_workspace`) -/

theorem mem_fsAdd_of_mem {fs : FS} {p : FsPath} (q : FsPath) (h : p ∈ fs) :
    p ∈ fsAdd fs q := by
  unfold fsAdd
  split
  · exact h
  · exact List.mem_cons_of_mem _ h

theorem self_mem_fsAdd (fs : FS) (q : FsPath) : q ∈ fsAdd fs q := by
  unfold fsAdd
  split
  · rw [← fsContains_iff]; assumption
  · exact List.mem_cons_self _ _

/-- The successful render loop only ever adds paths. -/
theorem renderLoop_mono (env : CreateEnv) (wsDir sub : FsPath)
    (ctx : List (String × String)) :
    ∀ (tfs : List String) (fs : FS) (p : FsPath), p ∈ fs →
      p ∈ (renderLoop env fs wsDir sub ctx tfs).1 := by
  intro tfs
  induction tfs with
  | nil => intro fs p h; exact h
  | cons tf rest ih =>
    intro fs p h
    unfold renderLoop
    split
    · exact ih fs p h
    · split
      · exact h
      · exact ih _ p (mem_fsAdd_of_mem _ h)

/-- A successful `create_workspace` returns `base_dir / workspace_name`,
and that directory exists in the resulting filesystem. -/
theorem create_workspace_ok_root (env : CreateEnv) (fs : FS)
    (baseDir : FsPath) (name templateName : String)
    (story? : Option StoryContext) (fs1 : FS) (wsDir : FsPath)
    (h : create_workspace env fs baseDir name templateName story? =
      (fs1, .ok wsDir)) :
    wsDir = baseDir ++ [name] ∧ fsContains fs1 wsDir = true := by
  unfold create_workspace at h
  split at h
  · exact absurd
      (show (Except.error (PyError.fileExists (baseDir ++ [name])) :
        Except PyError FsPath) = .ok wsDir from congrArg Prod.snd h)
      (by simp)
  · split at h
    · exact absurd
        (show (Except.error (PyError.runtimeError
            ("Template not found: " ++ templateName)) :
          Except PyError FsPath) = .ok wsDir from congrArg Prod.snd h)
        (by simp)
    · cases hports : create_workspace_ports env templateName with
      | error e =>
        rw [hports] at h
        exact absurd
          (show (Except.error e : Except PyError FsPath) = .ok wsDir from
            congrArg Prod.snd h)
          (by simp)
      | ok t =>
        rcases t with ⟨pg, cl, ju⟩
        rw [hports] at h
        dsimp only at h
        rcases hrl : renderLoop env
            (fsAdd (fsAdd fs (baseDir ++ [name]))
              ((baseDir ++ [name]) ++ ["workspace"]))
            (baseDir ++ [name]) ((baseDir ++ [name]) ++ ["workspace"])
            (createContext name pg cl
              (generate_secure_password env.choice 24) story? ju)
            ["Dockerfile.j2", "docker-compose.yml.j2", ".env.j2"]
          with ⟨fs3, r⟩
        rw [hrl] at h
        cases r with
        | error e =>
          exact absurd
            (show (Except.error e : Except PyError FsPath) = .ok wsDir from
              congrArg Prod.snd h)
            (by simp)
        | ok u =>
          have hsnd : (Except.ok (baseDir ++ [name]) :
              Except PyError FsPath) = .ok wsDir := congrArg Prod.snd h
          have hw : baseDir ++ [name] = wsDir := by
            injection hsnd
          have hmem3 : baseDir ++ [name] ∈ fs3 := by
            have := renderLoop_mono env (baseDir ++ [name])
              ((baseDir ++ [name]) ++ ["workspace"])
              (createContext name pg cl
                (generate_secure_password env.choice 24) story? ju)
              ["Dockerfile.j2", "docker-compose.yml.j2", ".env.j2"]
              (fsAdd (fsAdd fs (baseDir ++ [name]))
                ((baseDir ++ [name]) ++ ["workspace"]))
              (baseDir ++ [name])
              (mem_fsAdd_of_mem _ (self_mem_fsAdd fs (baseDir ++ [name])))
            rw [hrl] at this
            exact this
          refine ⟨hw.symm, ?_⟩
          have hfst : entryCopy env
              (scriptsCopy env
                (kanbanLink env fs3 ((baseDir ++ [name]) ++ ["workspace"]))
                (baseDir ++ [name]))
              (baseDir ++ [name]) = fs1 := congrArg Prod.fst h
          rw [← hfst, ← hw, fsContains_iff]
          unfold entryCopy scriptsCopy kanbanLink
          repeat' split
          all_goals
            repeat
              first
                | exact hmem3
                | apply mem_fsAdd_of_mem

/-- The story metadata `find_story_in_projects` returns. -/
structure StoryInfo where
  projectName : String
  projectDir : FsPath
  kanbanDir : String
  storyPath : String
  filterDirExists : Bool
  deriving Repr, DecidableEq

/-- External inputs of `create_story_workspace` beyond those of
`create_workspace`: the story lookup, the project's configured git URL,
the git clone/checkout outcomes, and the global workspaces directory. -/
structure StoryEnv where
  storyInfo? : Option StoryInfo
  gitUrl : String
  cloneOk : Bool
  checkoutNewOk : Bool
  checkoutExistingOk : Bool
  createEnv : CreateEnv
  defaultWorkspacesDir : FsPath

/-- `workspace.clone_git_repository(workspace_dir, git_url,
workspace_name)`: `git clone` (run with `check=False`) into
`workspace/repo`; a clone failure raises `RuntimeError`. The subsequent
`git checkout -b`, and on its failure the fallback `git checkout`, only
log: whatever `checkoutNewOk` / `checkoutExistingOk` are, nothing is
raised and the clone remains. -/
def clone_git_repository (cloneOk checkoutNewOk checkoutExistingOk : Bool)
    (fs : FS) (workspaceDir : FsPath) : FS × Except PyError Unit :=
  if !cloneOk then
    (fs, .error (.runtimeError "Git clone failed"))
  else
    (fsAdd fs (workspaceDir ++ ["workspace", "repo"]), .ok ())

/-- The names of the entries directly inside `baseDir`, i.e. the directory
names the `(base_dir / workspace_name).exists()` probe of the name
generator can hit. -/
def existingNames (fs : FS) (baseDir : FsPath) : List String :=
  fs.filterMap (fun p =>
    match p.getLast? with
    | none => none
    | some x => if p.dropLast == baseDir then some x else none)

/-- The base directory `create_story_workspace` uses when none is passed:
the project's `.filter/workspaces` when the project has a `.filter`
directory, else the configured global workspaces directory. -/
def storyBaseDir (env : StoryEnv) (info : StoryInfo)
    (baseDir? : Option FsPath) : FsPath :=
  match baseDir? with
  | some b => b
  | none =>
      if info.filterDirExists then
        info.projectDir ++ [".filter", "workspaces"]
      else env.defaultWorkspacesDir

/-- The `story_context` dictionary `create_story_workspace` assembles. -/
def storyContextOf (info : StoryInfo) (storyName gitUrl wsName' : String) :
    StoryContext :=
  ⟨info.projectName, storyName, info.storyPath, info.kanbanDir, gitUrl,
    wsName'⟩

/-- `workspace.create_story_workspace(story_name, base_dir, template_name,
custom_name)`: story lookup, unique name generation, `create_workspace`,
and then — only when the project configures a git URL — the clone, whose
`RuntimeError` is caught and only logged (the workspace is returned
regardless). -/
def create_story_workspace (env : StoryEnv) (fs : FS) (storyName : String)
    (baseDir? : Option FsPath) (templateName : String)
    (customName? : Option String) : FS × Except PyError FsPath :=
  match env.storyInfo? with
  | none => (fs, .error (.runtimeError ("Story not found: " ++ storyName)))
  | some info =>
    match generate_story_workspace_name storyName customName?
        (existingNames fs (storyBaseDir env info baseDir?)) with
    | .error e => (fs, .error e)
    | .ok wsName' =>
      match create_workspace env.createEnv fs
          (storyBaseDir env info baseDir?) wsName' templateName
          (some (storyContextOf info storyName env.gitUrl wsName')) with
      | (fs1, .error e) => (fs1, .error e)
      | (fs1, .ok workspaceDir) =>
        if env.gitUrl == "" then
          (fs1, .ok workspaceDir)
        else
          match clone_git_repository env.cloneOk env.checkoutNewOk
              env.checkoutExistingOk fs1 workspaceDir with
          | (fs2, .error _) => (fs2, .ok workspaceDir)
          | (fs2, .ok _) => (fs2, .ok workspaceDir)

/-- C4. Tolerant-failure non-rollback: when steps 1–6 succeeded (the
story was found, a name was generated, and `create_workspace` returned the
workspace directory) but the git clone fails, `create_story_workspace`
still returns that directory as a successful result, the directory still
exists on disk, and the filesystem is exactly the one the successful
create produced — nothing is rolled back. -/
theorem create_story_workspace_clone_failure (env : StoryEnv) (fs : FS)
    (storyName : String) (baseDir? : Option FsPath) (templateName : String)
    (customName? : Option String) (info : StoryInfo) (wsName' : String)
    (fs1 : FS) (wsDir : FsPath)
    (hinfo : env.storyInfo? = some info)
    (hname : generate_story_workspace_name storyName customName?
      (existingNames fs (storyBaseDir env info baseDir?)) = .ok wsName')
    (hcreate : create_workspace env.createEnv fs
      (storyBaseDir env info baseDir?) wsName' templateName
      (some (storyContextOf info storyName env.gitUrl wsName')) =
        (fs1, .ok wsDir))
    (hurl : env.gitUrl ≠ "")
    (hclone : env.cloneOk = false) :
    create_story_workspace env fs storyName baseDir? templateName
        customName? = (fs1, .ok wsDir) ∧
      fsContains fs1 wsDir = true := by
  refine ⟨?_, (create_workspace_ok_root env.createEnv fs
    (storyBaseDir env info baseDir?) wsName' templateName
    (some (storyContextOf info storyName env.gitUrl wsName')) fs1 wsDir
    hcreate).2⟩
  unfold create_story_workspace
  rw [hinfo]
  simp only [hname, hcreate]
  rw [if_neg (by simpa using hurl)]
  simp [clone_git_repository, hclone]

/-- A concrete story environment for C4: the create step finds no template
files to render (so creation succeeds with warnings) and the clone fails. -/
def storyFailEnv : StoryEnv where
  storyInfo? := some ⟨"proj", ["proj"], "kanban", "story.md", false⟩
  gitUrl := "https://example.com/r.git"
  cloneOk := false
  checkoutNewOk := false
  checkoutExistingOk := false
  createEnv :=
    { templateDirExists := true
      templateFeatures := []
      bindOk := fun _ => true
      choice := fun _ => 0
      templateFiles := fun _ => none
      attrs := fun _ _ => none
      filterKanban := false
      legacyKanban := false
      scriptsExist := false
      entrypointExists := false }
  defaultWorkspacesDir := ["wsroot"]

/-- Witness for C4: with `storyFailEnv` on an empty filesystem, using the
custom suffix `exp`, the failed clone still yields the created workspace
`wsroot/demo-1-exp`, present on disk. -/
theorem create_story_workspace_clone_failure_witness :
    create_story_workspace storyFailEnv [] "demo-1" none "default"
        (some "exp") =
      ([["wsroot", "demo-1-exp", "workspace"], ["wsroot", "demo-1-exp"]],
        .ok ["wsroot", "demo-1-exp"]) ∧
    fsContains [["wsroot", "demo-1-exp", "workspace"],
        ["wsroot", "demo-1-exp"]] ["wsroot", "demo-1-exp"] = true :=
  create_story_workspace_clone_failure storyFailEnv [] "demo-1" none
    "default" (some "exp") ⟨"proj", ["proj"], "kanban", "story.md", false⟩
    "demo-1-exp"
    [["wsroot", "demo-1-exp", "workspace"], ["wsroot", "demo-1-exp"]]
    ["wsroot", "demo-1-exp"] rfl rfl rfl (by decide) rfl

end Filter
